import Mathlib

/-!
Verification development for the `rinterface` package
(`rinterface/rinterface.py`, `rinterface/utils.py`).

The Python source is shallowly embedded: strings are `List Char`, the
filesystem is a partial map from paths to file contents, the external
`Rscript` subprocess is an oracle recording its exit code, its two output
streams and the files it wrote, and every fallible Python operation is
modelled with `Option`/`Except`.  Python `float` values are modelled as
rationals; the decimal-literal subset of CPython's `float()`/`int()`
parsers (the forms the R encoder emits) is implemented explicitly.
-/

namespace RInterface

/-! ## Python string primitives -/

/-- The characters `str.strip()` removes (Python whitespace, ASCII part). -/
def isPySpace (c : Char) : Bool :=
  c == ' ' || c == '\t' || c == '\n' || c == '\r' || c == '\x0b' || c == '\x0c'

/-- Python `s.strip()`. -/
def pyStrip (s : List Char) : List Char :=
  ((s.dropWhile isPySpace).reverse.dropWhile isPySpace).reverse

/-- Python `s.split(c, 1)` for a one-character separator, assuming the
separator occurs (callers check `c in s` first); if the separator is
absent the whole string is returned as the first component. -/
def splitFirst (c : Char) : List Char → List Char × List Char
  | [] => ([], [])
  | x :: xs =>
    if x == c then ([], xs)
    else
      let p := splitFirst c xs
      (x :: p.1, p.2)

/-- Python `s.split(c)` for a one-character separator:
`"".split(c) = [""]`, `"a,".split(",") = ["a", ""]`, etc. -/
def splitAll (c : Char) : List Char → List (List Char)
  | [] => [[]]
  | x :: xs =>
    if x == c then [] :: splitAll c xs
    else
      match splitAll c xs with
      | [] => [[x]]
      | a :: rest => (x :: a) :: rest

/-- Numeric value of a digit string (no validation). -/
def digitsVal (s : List Char) : Nat :=
  s.foldl (fun a c => a * 10 + (c.toNat - 48)) 0

/-- A nonempty all-digit string, as a natural number. -/
def digitsToNat (s : List Char) : Option Nat :=
  if s ≠ [] ∧ s.all Char.isDigit then some (digitsVal s) else none

/-- Python `int(s)`: strip whitespace, optional sign, nonempty digits.
(The CPython parser also accepts digit-group underscores and non-ASCII
digits; those forms never occur here.) -/
def pyInt (s : List Char) : Option Int :=
  match pyStrip s with
  | '-' :: r => (digitsToNat r).map (fun n => -(n : Int))
  | '+' :: r => (digitsToNat r).map (fun n => (n : Int))
  | r => (digitsToNat r).map (fun n => (n : Int))

/-- Python `float(s)`, restricted to plain decimal literals
(optional sign, digits with an optional fractional part) — the forms the
R-side encoder emits; exponents/`inf`/`nan` are out of scope.  The value
is modelled as a rational. -/
def pyFloat (s : List Char) : Option ℚ :=
  let t := pyStrip s
  let su : ℚ × List Char :=
    match t with
    | '-' :: r => (-1, r)
    | '+' :: r => (1, r)
    | r => (1, r)
  let sgn := su.1
  let u := su.2
  if u.contains '.' then
    let p := splitFirst '.' u
    if p.2.contains '.' then none
    else if p.1 = [] ∧ p.2 = [] then none
    else
      let ip : Option Nat := if p.1 = [] then some 0 else digitsToNat p.1
      let fp : Option ℚ :=
        if p.2 = [] then some 0
        else (digitsToNat p.2).map (fun n => (n : ℚ) / (10 : ℚ) ^ p.2.length)
      match ip, fp with
      | some i, some f => some (sgn * ((i : ℚ) + f))
      | _, _ => none
  else
    (digitsToNat u).map (fun n => sgn * (n : ℚ))

/-- Helper for `pyReadlines` (accumulator holds the current line reversed). -/
def pyReadlinesAux (acc : List Char) : List Char → List (List Char)
  | [] => if acc = [] then [] else [acc.reverse]
  | c :: rest =>
    if c == '\n' then ( '\n' :: acc).reverse :: pyReadlinesAux [] rest
    else pyReadlinesAux (c :: acc) rest

/-- Python `f.readlines()` on the file content: split after each newline,
keeping the newline; a final fragment without a newline is its own line. -/
def pyReadlines (s : List Char) : List (List Char) :=
  pyReadlinesAux [] s

/-! ## Filesystem model -/

/-- The filesystem: a partial map from paths to file contents. -/
abbrev FS := List Char → Option (List Char)

def emptyFS : FS := fun _ => none

def fsWrite (fs : FS) (p c : List Char) : FS :=
  fun q => if q = p then some c else fs q

def fsRemove (fs : FS) (p : List Char) : FS :=
  fun q => if q = p then none else fs q

def fsExists (fs : FS) (p : List Char) : Bool :=
  (fs p).isSome

/-! ## Python values and exceptions -/

/-- A scalar element of a decoded `list[...]` value. -/
inductive PyScalar where
  | sInt (n : Int)
  | sFloat (q : ℚ)
  | sStr (s : List Char)
deriving DecidableEq

/-- The Python values `parse_r_output` produces.  A decoded
`pd.DataFrame` is modelled by the raw CSV text that was read (no claim
inspects the parsed table).  `vNdarray2 r c data` stores NumPy's
row-major (C-order) backing data, as produced by `reshape((r, c))`.
The `list[...]` branch only ever builds lists of scalars, so `vList`
holds `PyScalar`s. -/
inductive PyVal where
  | vInt (n : Int)
  | vFloat (q : ℚ)
  | vStr (s : List Char)
  | vList (xs : List PyScalar)
  | vNdarray1 (xs : List ℚ)
  | vNdarray2 (r c : Nat) (rowMajor : List ℚ)
  | vDataFrame (csv : List Char)
deriving DecidableEq

/-- The overall return value of `rinterface`: `None`, a
`CompletedProcess` (its two captured streams), a single grabbed value,
or a tuple of grabbed values. -/
inductive RRes where
  | rNone
  | rCompleted (stdoutTxt stderrTxt : List Char)
  | rVal (v : PyVal)
  | rTuple (vs : List PyVal)
deriving DecidableEq

/-- The exceptions the embedded code can raise.  `runtimeError` keeps the
pieces the Python code interpolates into its message: the child's exit
code and the `stderr`/`stdout` attributes of the `CalledProcessError`
(`none` when the run was not capturing, in which case the rendered
message shows the text `None`). -/
inductive PyError where
  | valueError (msg : List Char)
  | runtimeError (returncode : Int) (stderrAttr stdoutAttr : Option (List Char))
  | fileNotFound (path : List Char)
deriving DecidableEq

/-! ## `parse_r_output` (rinterface.py, lines 157-238)

The function is factored into one helper per `expected_type` branch; each
helper is a direct transcription of the corresponding block of the
source.  `value_str` is the already-stripped text after the first `=`. -/

/-- The `float` branch: `return float(value_str)`; a conversion failure
is CPython's `ValueError` (whose real message also quotes the text). -/
def parseFloatBranch (value_str : List Char) : Except PyError PyVal :=
  match pyFloat value_str with
  | some q => .ok (.vFloat q)
  | none => .error (.valueError ("could not convert string to float: ".data ++ value_str))

/-- The `int` branch: `return int(value_str)`. -/
def parseIntBranch (value_str : List Char) : Except PyError PyVal :=
  match pyInt value_str with
  | some n => .ok (.vInt n)
  | none => .error (.valueError ("invalid literal for int() with base 10: ".data ++ value_str))

/-- The `list[...]` branch (source lines 186-198): extract the element
type as `expected_type[5:-1].strip()`; empty text returns `[]` before the
element type is even inspected; otherwise split on commas and convert
each element, with an unrecognized element type raising `ValueError`. -/
def parseListBranch (value_str expected_type : List Char) : Except PyError PyVal :=
  let subtype := pyStrip ((expected_type.drop 5).dropLast)
  if value_str = [] then .ok (.vList [])
  else
    let items := splitAll ',' value_str
    if subtype = "int".data then
      match items.mapM pyInt with
      | some xs => .ok (.vList (xs.map .sInt))
      | none => .error (.valueError "invalid literal for int() with base 10".data)
    else if subtype = "float".data then
      match items.mapM pyFloat with
      | some xs => .ok (.vList (xs.map .sFloat))
      | none => .error (.valueError "could not convert string to float".data)
    else if subtype = "str".data then .ok (.vList (items.map .sStr))
    else .error (.valueError ("Unsupported list element type \x27".data ++ subtype ++ "\x27".data))

/-- Element conversion for the matrix branch: empty (after strip) text
gives `data = []`, otherwise split on commas and convert each element
with `float`. -/
def parseArrayData (array_part : List Char) : Except PyError (List ℚ) :=
  if pyStrip array_part = [] then .ok []
  else
    match (splitAll ',' array_part).mapM pyFloat with
    | some d => .ok d
    | none => .error (.valueError "could not convert string to float".data)

/-- The `np.ndarray` branch (source lines 201-220).  When the text has
both `:` and `x` it is parsed as `<rows>x<cols>:<elements>`: the shape is
split on `x` (exactly two components), the dims converted with `int`,
the elements with `float`, and a count/shape mismatch raises
`ValueError("Matrix data does not match shape.")`; the surviving data is
reshaped row-major (NumPy C order) into an `r × c` array.  NumPy rejects
negative dimensions in `reshape`, which can only be reached here when the
length check passed with a negative dim; that rejection is the final
`valueError`.  Without a shape prefix the text decodes as a flat vector,
empty text giving an empty array. -/
def parseNdarrayBranch (line value_str : List Char) : Except PyError PyVal :=
  if value_str.contains ':' && value_str.contains 'x' then
    let sa := splitFirst ':' value_str
    match splitAll 'x' sa.1 with
    | [a, b] =>
      match pyInt a with
      | none => .error (.valueError ("invalid literal for int() with base 10: ".data ++ a))
      | some nrows =>
        match pyInt b with
        | none => .error (.valueError ("invalid literal for int() with base 10: ".data ++ b))
        | some ncols =>
          match parseArrayData sa.2 with
          | .error e => .error e
          | .ok data =>
            if (data.length : Int) ≠ nrows * ncols then
              .error (.valueError "Matrix data does not match shape.".data)
            else if nrows < 0 ∨ ncols < 0 then
              .error (.valueError "cannot reshape array: negative dimensions".data)
            else .ok (.vNdarray2 nrows.toNat ncols.toNat data)
    | _ => .error (.valueError ("Invalid matrix shape in line: ".data ++ line))
  else
    if value_str = [] then .ok (.vNdarray1 [])
    else
      match (splitAll ',' value_str).mapM pyFloat with
      | some d => .ok (.vNdarray1 d)
      | none => .error (.valueError "could not convert string to float".data)

/-- The `pd.DataFrame` branch (source lines 223-236): the text must start
with `DATAFRAME:`; the rest (stripped) is a CSV path which is read with
`pd.read_csv` (raising `FileNotFoundError` when absent) and then removed
from the filesystem. -/
def parseDfBranch (value_str expected_type : List Char) (fs : FS) :
    Except PyError PyVal × FS :=
  if "DATAFRAME:".data.isPrefixOf value_str then
    let csv_path := pyStrip (value_str.drop 10)
    match fs csv_path with
    | none => (.error (.fileNotFound csv_path), fs)
    | some content => (.ok (.vDataFrame content), fsRemove fs csv_path)
  else
    (.error (.valueError ("Expected \x27DATAFRAME:\x27 prefix, got ".data ++ value_str
      ++ " for type ".data ++ expected_type)), fs)

/-- `parse_r_output(line, expected_type)` (source lines 157-238): split
the line on the first `=` (raising when no `=` is present), strip the
value text, then dispatch purely on the declared type.  The filesystem is
threaded through because the `pd.DataFrame` branch reads and deletes its
CSV file; every other branch leaves it untouched. -/
def parse_r_output (line expected_type : List Char) (fs : FS) :
    Except PyError PyVal × FS :=
  if ¬ line.contains '=' then
    (.error (.valueError ("Cannot parse line (no \x27=\x27 found): ".data ++ line)), fs)
  else
    let p := splitFirst '=' line
    let value_str := pyStrip p.2
    if expected_type = "float".data then (parseFloatBranch value_str, fs)
    else if expected_type = "int".data then (parseIntBranch value_str, fs)
    else if expected_type = "str".data then (.ok (.vStr value_str), fs)
    else if "list[".data.isPrefixOf expected_type then
      (parseListBranch value_str expected_type, fs)
    else if expected_type = "np.ndarray".data then
      (parseNdarrayBranch line value_str, fs)
    else if expected_type = "pd.DataFrame".data then
      parseDfBranch value_str expected_type fs
    else
      (.error (.valueError ("Unsupported type \x27".data ++ expected_type
        ++ "\x27 in @grab annotation.".data)), fs)

/-! ## Annotation scanner (rinterface.py, line 54)

`re.findall(r"#\s*@grab\{([^}]+)\}\n(.+)", code)`: at each position, a
match is `#`, any run of whitespace (which may span newlines), the
literal `@grab` and an opening brace, one or more non-brace characters
(the type), a closing brace followed immediately by a newline, and one
or more non-newline characters (the variable line).  Matches are
non-overlapping, scanned left to right, and each yields the pair
(type, variable line). -/

/-- Try to match the `@grab` pattern at the head of `s`; on success
return the captured (type, variable line) pair and the remaining input
after the match. -/
def matchGrabAt (s : List Char) : Option ((List Char × List Char) × List Char) :=
  match s with
  | '#' :: r =>
    let r1 := r.dropWhile isPySpace
    if "@grab\x7b".data.isPrefixOf r1 then
      let r2 := r1.drop 6
      let ty := r2.takeWhile (fun c => c != '\x7d')
      if ty = [] then none
      else
        match r2.drop ty.length with
        | '\x7d' :: '\n' :: r3 =>
          let vd := r3.takeWhile (fun c => c != '\n')
          if vd = [] then none
          else some ((ty, vd), r3.drop vd.length)
        | _ => none
    else none
  | _ => none

/-- Fuelled scanning loop: on a match, emit the pair and resume after the
match; otherwise advance one character.  Fuel equal to the input length
suffices because every step consumes at least one character. -/
def scanGrabAux : Nat → List Char → List (List Char × List Char)
  | 0, _ => []
  | _, [] => []
  | n + 1, c :: cs =>
    match matchGrabAt (c :: cs) with
    | some (p, rest) => p :: scanGrabAux n rest
    | none => scanGrabAux n cs

/-- `re.findall` over the whole script text. -/
def scanGrab (code : List Char) : List (List Char × List Char) :=
  scanGrabAux code.length code

/-! ## Grab-snippet generation (rinterface.py, lines 55-86) -/

/-- The R snippet the f-string template (source lines 58-83) produces for
one `(var_type, var_def)` pair with a fresh uuid hex token.  Literal
braces of the R code are written with their escapes. -/
def grabSnippet (uuid vtype vdef : List Char) : List Char :=
  "\n        # For variable: ".data ++ vdef ++ ", type=".data ++ vtype
    ++ "\n        if (is.data.frame(".data ++ vdef ++ ")) \x7b".data
    ++ "\n        # Make a unique filename for this data frame".data
    ++ "\n        df_filename <- paste0(\".grab_df_\", make.names(\"".data ++ vdef
    ++ "\"), \"_\", \"".data ++ uuid ++ "\", \".csv\")".data
    ++ "\n        # Write a line \"varName=DATAFRAME:.grab_df_xyz.csv\"".data
    ++ "\n        cat(\"".data ++ vdef
    ++ "=DATAFRAME:\", df_filename, \"\\n\", file=\".grab_output.txt\", append=TRUE)".data
    ++ "\n        # Write the data frame to that CSV".data
    ++ "\n        write.csv(".data ++ vdef ++ ", file=df_filename, row.names=FALSE)".data
    ++ "\n        \x7d else if (is.matrix(".data ++ vdef ++ ")) \x7b".data
    ++ "\n        dims <- dim(".data ++ vdef ++ ")".data
    ++ "\n        cat(\"".data ++ vdef ++ "=\", file=\".grab_output.txt\", append=TRUE)".data
    ++ "\n        cat(paste0(dims[1], \"x\", dims[2], \":\"), file=\".grab_output.txt\", append=TRUE)".data
    ++ "\n        cat(paste(".data ++ vdef ++ ", collapse=\",\"), file=\".grab_output.txt\", append=TRUE)".data
    ++ "\n        cat(\"\\n\", file=\".grab_output.txt\", append=TRUE)".data
    ++ "\n        \x7d else if (is.vector(".data ++ vdef ++ ")) \x7b".data
    ++ "\n        cat(\"".data ++ vdef ++ "=\", file=\".grab_output.txt\", append=TRUE)".data
    ++ "\n        cat(paste(".data ++ vdef ++ ", collapse=\",\"), file=\".grab_output.txt\", append=TRUE)".data
    ++ "\n        cat(\"\\n\", file=\".grab_output.txt\", append=TRUE)".data
    ++ "\n        \x7d else \x7b".data
    ++ "\n        # fallback for scalar/string/factor".data
    ++ "\n        cat(\"".data ++ vdef ++ "=\", file=\".grab_output.txt\", append=TRUE)".data
    ++ "\n        cat(as.character(".data ++ vdef ++ "), file=\".grab_output.txt\", append=TRUE)".data
    ++ "\n        cat(\"\\n\", file=\".grab_output.txt\", append=TRUE)".data
    ++ "\n        \x7d".data
    ++ "\n        ".data

/-- Concatenation of the per-pair snippets; the loop draws one fresh
`uuid.uuid4().hex` token per pair, modelled by the `uuidFor` oracle
indexed by the pair's position. -/
def grabSnippets (uuidFor : Nat → List Char) (pairs : List (List Char × List Char)) :
    List Char :=
  (pairs.enum.map (fun x => grabSnippet (uuidFor x.1) x.2.1 x.2.2)).flatten

/-! ## `rinterface` (rinterface.py, lines 20-154) -/

/-- The outcome of running `Rscript` on the generated temporary file: its
exit code, what it printed on each stream, and the files it wrote (the
side-channel file and any data-frame CSVs), applied in order. -/
structure ProcOutcome where
  exitCode : Int
  stdoutTxt : List Char
  stderrTxt : List Char
  writes : List (List Char × List Char)

/-- The observable result of a call to `rinterface`: the returned value
or raised exception, the final filesystem, and whether the subprocess
was ever spawned. -/
structure RunOut where
  res : Except PyError RRes
  fs : FS
  spawned : Bool

def temp_file : List Char := ".temp.R".data

def temp_output : List Char := ".grab_output.txt".data

def applyWrites (fs : FS) (ws : List (List Char × List Char)) : FS :=
  ws.foldl (fun f pc => fsWrite f pc.1 pc.2) fs

/-- Python truthiness of the `fname` argument: `not fname` is true for
`None` and for the empty string. -/
def pyFalsyName : Option (List Char) → Bool
  | none => true
  | some s => s.isEmpty

/-- The decoding loop (source lines 133-135):
`for (var_type, var_def), line in zip(annotated_lines, grabbed_lines)`,
parsing each stripped line at its declaration's type; `zip` stops at the
shorter sequence, and the first parse error aborts the loop. -/
def decodeLoop :
    List (List Char × List Char) → List (List Char) → FS →
    Except PyError (List PyVal) × FS
  | [], _, fs => (.ok [], fs)
  | _ :: _, [], fs => (.ok [], fs)
  | (var_type, _) :: ds, line :: ls, fs =>
    match parse_r_output (pyStrip line) var_type fs with
    | (.error e, fs2) => (.error e, fs2)
    | (.ok v, fs2) =>
      match decodeLoop ds ls fs2 with
      | (.error e, fs3) => (.error e, fs3)
      | (.ok vs, fs3) => (.ok (v :: vs), fs3)

/-- The body of the `try:` block of `rinterface` (source lines 52-147),
including the annotation scan and snippet append that precede it: write
the combined script to `.temp.R`; when `save` is requested without a
(truthy) `fname`, raise `ValueError` before spawning anything; otherwise
optionally persist the combined script, run `Rscript` (the oracle's
writes hit the filesystem and a nonzero exit becomes `RuntimeError`
carrying the exit code and the captured-or-`None` streams), and then
return the captured process, `None`, or the decoded grab results. -/
def rinterfaceTry (code : List Char) (save : Bool) (fname : Option (List Char))
    (capture grab : Bool) (uuidFor : Nat → List Char) (proc : ProcOutcome)
    (fs0 : FS) : RunOut :=
  let annotated_lines := if grab then scanGrab code else []
  let grab_snippet := grabSnippets uuidFor annotated_lines
  let code2 :=
    if grab_snippet ≠ [] then
      code ++ "\n\n# Appended grab-snippet\n".data ++ grab_snippet
    else code
  let fs1 := fsWrite fs0 temp_file code2
  if save ∧ pyFalsyName fname then
    ⟨.error (.valueError "If \x27save\x27 is True, \x27fname\x27 cannot be None.".data),
      fs1, false⟩
  else
    let fs2 :=
      if save then
        match fname with
        | some f => fsWrite fs1 f code2
        | none => fs1
      else fs1
    let fs3 := applyWrites fs2 proc.writes
    if proc.exitCode ≠ 0 then
      ⟨.error (.runtimeError proc.exitCode
          (if capture then some proc.stderrTxt else none)
          (if capture then some proc.stdoutTxt else none)),
        fs3, true⟩
    else if grab = false ∧ capture = true then
      ⟨.ok (.rCompleted proc.stdoutTxt proc.stderrTxt), fs3, true⟩
    else if grab = false then ⟨.ok .rNone, fs3, true⟩
    else if fsExists fs3 temp_output = false then ⟨.ok .rNone, fs3, true⟩
    else
      let grabbed_lines := pyReadlines ((fs3 temp_output).getD [])
      match decodeLoop annotated_lines grabbed_lines fs3 with
      | (.error e, fs4) => ⟨.error e, fs4, true⟩
      | (.ok parsed, fs4) =>
        match parsed with
        | [v] => ⟨.ok (.rVal v), fs4, true⟩
        | vs => ⟨.ok (.rTuple vs), fs4, true⟩

/-- `rinterface(code, save, fname, capture, grab)`: the `try:` body
followed by the `finally:` block (source lines 149-154), which removes
the temporary script and the side-channel file (remove-if-exists) on
every exit path before the result or exception reaches the caller. -/
def rinterface (code : List Char) (save : Bool) (fname : Option (List Char))
    (capture grab : Bool) (uuidFor : Nat → List Char) (proc : ProcOutcome)
    (fs0 : FS) : RunOut :=
  let b := rinterfaceTry code save fname capture grab uuidFor proc fs0
  ⟨b.res, fsRemove (fsRemove b.fs temp_file) temp_output, b.spawned⟩

/-! ## Specification-side definitions

These definitions come from the spec's words (the wire format and the
expected array layout), for comparison with the decoder above. -/

/-- Column-major flattening of a matrix given as a list of rows: what R
emits for a matrix via `paste(m, collapse=",")` (R stores matrices
column-major), i.e. the element order of the encoded wire line. -/
def colMajorFlatten (rows : List (List ℚ)) : List ℚ :=
  ((List.range (rows.headD []).length).map (fun j => rows.map (fun r => r.getD j 0))).flatten

/-- The logical rows of a NumPy array with shape `(r, c)` over a C-order
(row-major) backing buffer: row `i` is `data[i*c : i*c + c]`. -/
def rowsOfNdarray (r c : Nat) (data : List ℚ) : List (List ℚ) :=
  (List.range r).map (fun i => (data.drop (i * c)).take c)

/-- Decidable equality for `Except` results (not derived in core). -/
instance instDecEqExcept {ε α : Type} [DecidableEq ε] [DecidableEq α] :
    DecidableEq (Except ε α) := fun a b =>
  match a, b with
  | .ok x, .ok y => decidable_of_iff (x = y) (by simp)
  | .error x, .error y => decidable_of_iff (x = y) (by simp)
  | .ok _, .error _ => isFalse (by simp)
  | .error _, .ok _ => isFalse (by simp)

/-! ## Helper lemmas -/

theorem contains_append_cons_self (a b : List Char) (c : Char) :
    (a ++ c :: b).contains c = true := by
  induction a with
  | nil => simp
  | cons x xs ih => simp_all [List.contains_cons]

theorem splitFirst_append_cons (c : Char) (a b : List Char)
    (h : a.contains c = false) : splitFirst c (a ++ c :: b) = (a, b) := by
  induction a with
  | nil => simp [splitFirst]
  | cons x xs ih =>
    simp only [List.contains_cons, Bool.or_eq_false_iff] at h
    have hxc : (x == c) = false := by
      simp only [beq_eq_false_iff_ne] at h ⊢
      exact fun hx => h.1 hx.symm
    simp only [List.cons_append, splitFirst, hxc, Bool.false_eq_true, if_false]
    have := ih h.2
    simp only [List.append_eq] at this ⊢
    rw [this]

theorem decodeLoop_take_eq (ds : List (List Char × List Char)) :
    ∀ (ls : List (List Char)) (fs : FS),
      decodeLoop ds ls fs = decodeLoop (ds.take ls.length) ls fs := by
  induction ds with
  | nil => intro ls fs; simp
  | cons d ds ih =>
    intro ls fs
    cases ls with
    | nil => simp [decodeLoop]
    | cons l ls =>
      obtain ⟨vt, vd⟩ := d
      simp only [List.length_cons, List.take_succ_cons, decodeLoop]
      rcases hp : parse_r_output (pyStrip l) vt fs with ⟨r, fs2⟩
      cases r with
      | error e => rfl
      | ok v =>
        dsimp only
        rw [ih ls fs2]

theorem decodeLoop_ok_length (ds : List (List Char × List Char)) :
    ∀ (ls : List (List Char)) (fs fs2 : FS) (vs : List PyVal),
      decodeLoop ds ls fs = (.ok vs, fs2) →
      vs.length = min ds.length ls.length := by
  induction ds with
  | nil =>
    intro ls fs fs2 vs h
    simp only [decodeLoop, Prod.mk.injEq, Except.ok.injEq] at h
    obtain ⟨h1, _⟩ := h
    subst h1
    simp
  | cons d ds ih =>
    intro ls fs fs2 vs h
    cases ls with
    | nil =>
      obtain ⟨vt, vd⟩ := d
      simp only [decodeLoop, Prod.mk.injEq, Except.ok.injEq] at h
      obtain ⟨h1, _⟩ := h
      subst h1
      simp
    | cons l ls =>
      obtain ⟨vt, vd⟩ := d
      simp only [decodeLoop] at h
      rcases hp : parse_r_output (pyStrip l) vt fs with ⟨r, fsx⟩
      rw [hp] at h
      cases r with
      | error e => simp at h
      | ok v =>
        dsimp only at h
        rcases hd : decodeLoop ds ls fsx with ⟨r2, fsy⟩
        rw [hd] at h
        cases r2 with
        | error e => simp at h
        | ok vs2 =>
          dsimp only at h
          simp only [Prod.mk.injEq, Except.ok.injEq] at h
          obtain ⟨h1, _⟩ := h
          subst h1
          have := ih ls fsx fsy vs2 hd
          simp [this, List.length_cons, Nat.succ_min_succ]

/-! ## Claim theorems -/

/-- Claim C1 (refuted as stated; evaluation at the failing input): when
the R process exits with status 1 having printed `out`/`boom` on its
streams and the caller did not request capture, the raised execution
error carries the exit code but `None` in place of both streams — the
run passed `capture_output=False`, so `CalledProcessError.stdout/stderr`
are `None`; only a capturing run attaches the actual texts. -/
theorem c1_exec_error_drops_streams :
    (rinterface "x <- 1".data false none false false (fun _ => "u".data)
        ⟨1, "out".data, "boom".data, []⟩ emptyFS).res =
      .error (.runtimeError 1 none none) ∧
    (rinterface "x <- 1".data false none true false (fun _ => "u".data)
        ⟨1, "out".data, "boom".data, []⟩ emptyFS).res =
      .error (.runtimeError 1 (some "boom".data) (some "out".data)) ∧
    (PyError.runtimeError 1 none none ≠
      .runtimeError 1 (some "boom".data) (some "out".data)) := by
  refine ⟨?_, ?_, ?_⟩ <;> with_unfolding_all decide

/-- Claim C2 (refuted as stated; evaluation at the failing input): the
2×3 matrix `[[1,2,3],[4,5,6]]` flattens column-major to `1,4,2,5,3,6`,
and decoding the wire line `m=2x3:1,4,2,5,3,6` reshapes that buffer
row-major, yielding logical rows `[[1,4,2],[5,3,6]]` — not the original
matrix, so encode→decode does not round-trip rank-2 arrays. -/
theorem c2_matrix_roundtrip_fails :
    colMajorFlatten [[1, 2, 3], [4, 5, 6]] = [1, 4, 2, 5, 3, 6] ∧
    (parse_r_output "m=2x3:1,4,2,5,3,6".data "np.ndarray".data emptyFS).1 =
      .ok (.vNdarray2 2 3 [1, 4, 2, 5, 3, 6]) ∧
    rowsOfNdarray 2 3 [1, 4, 2, 5, 3, 6] = [[1, 4, 2], [5, 3, 6]] ∧
    ([[1, 4, 2], [5, 3, 6]] : List (List ℚ)) ≠ [[1, 2, 3], [4, 5, 6]] := by
  refine ⟨?_, ?_, ?_, ?_⟩ <;> with_unfolding_all decide

/-- Claim C3 counterexample: on the execution-failure exit path an
auxiliary data-frame CSV written by the R process is NOT removed — the
`finally:` block only deletes `.temp.R` and `.grab_output.txt` — so the
claim that all auxiliary CSVs are removed on every exit path fails. -/
theorem c3_csv_survives_failure :
    (rinterface "x <- 1".data false none false false (fun _ => "u".data)
        ⟨1, "out".data, "boom".data, [(".grab_df_left.csv".data, "a\n1\n".data)]⟩
        emptyFS).fs ".grab_df_left.csv".data = some "a\n1\n".data ∧
    (rinterface "x <- 1".data false none false false (fun _ => "u".data)
        ⟨1, "out".data, "boom".data, [(".grab_df_left.csv".data, "a\n1\n".data)]⟩
        emptyFS).res = .error (.runtimeError 1 none none) := by
  constructor <;> with_unfolding_all decide

/-- Claim C3 (amended): on every exit path of `rinterface` the temporary
script `.temp.R` and the side-channel file `.grab_output.txt` are absent
from the final filesystem; an auxiliary data-frame CSV is removed exactly
when its `DATAFRAME:` line is successfully decoded (the read succeeds and
the file is deleted right after loading). -/
theorem c3_temp_cleanup_amended (code : List Char) (save : Bool)
    (fname : Option (List Char)) (capture grab : Bool) (uuidFor : Nat → List Char)
    (proc : ProcOutcome) (fs0 : FS) :
    (rinterface code save fname capture grab uuidFor proc fs0).fs temp_file = none ∧
    (rinterface code save fname capture grab uuidFor proc fs0).fs temp_output = none ∧
    (∀ (fs : FS) (content : List Char),
      fs ".grab_df_a.csv".data = some content →
      parse_r_output "d=DATAFRAME:.grab_df_a.csv".data "pd.DataFrame".data fs =
        (.ok (.vDataFrame content), fsRemove fs ".grab_df_a.csv".data)) := by
  refine ⟨?_, ?_, ?_⟩
  · unfold rinterface
    simp [fsRemove, temp_file, temp_output]
  · unfold rinterface
    simp [fsRemove, temp_file, temp_output]
  · intro fs content h
    have e : parse_r_output "d=DATAFRAME:.grab_df_a.csv".data "pd.DataFrame".data fs =
        (match fs ".grab_df_a.csv".data with
         | none => (.error (.fileNotFound ".grab_df_a.csv".data), fs)
         | some c => (.ok (.vDataFrame c), fsRemove fs ".grab_df_a.csv".data)) := rfl
    rw [e, h]

/-- Claim C3 witness: a concrete run has the temp script removed, and a
concrete filesystem holding `.grab_df_a.csv` has it deleted by a
successful `pd.DataFrame` decode. -/
theorem c3_temp_cleanup_witness :
    (rinterface "c".data false none false false (fun _ => "u".data)
        ⟨0, [], [], []⟩ emptyFS).fs temp_file = none ∧
    parse_r_output "d=DATAFRAME:.grab_df_a.csv".data "pd.DataFrame".data
        (fsWrite emptyFS ".grab_df_a.csv".data "z".data) =
      (.ok (.vDataFrame "z".data),
        fsRemove (fsWrite emptyFS ".grab_df_a.csv".data "z".data)
          ".grab_df_a.csv".data) := by
  have h := c3_temp_cleanup_amended "c".data false none false false
    (fun _ => "u".data) ⟨0, [], [], []⟩ emptyFS
  exact ⟨h.1, h.2.2 (fsWrite emptyFS ".grab_df_a.csv".data "z".data) "z".data (by decide)⟩

/-- Claim C4 counterexample: with `grab=True`, zero collected
declarations and a side-channel file that happens to exist after the
successful run, `rinterface` returns the EMPTY TUPLE (`tuple([])`), not
`None` — `len(parsed) == 1` fails for `parsed = []`, so `tuple(parsed)`
is returned. -/
theorem c4_empty_tuple_on_stray_sidechannel :
    scanGrab "x <- 1".data = [] ∧
    (rinterface "x <- 1".data false none false true (fun _ => "u".data)
        ⟨0, [], [], [(temp_output, "junk\n".data)]⟩ emptyFS).res = .ok (.rTuple []) := by
  constructor <;> with_unfolding_all decide

/-- Claim C4 (amended): with `grab=True` and zero collected declarations
after a successful run, `rinterface` returns `None` when no side-channel
file exists afterwards; when one does exist it returns the empty tuple.
Neither case raises. -/
theorem c4_no_declarations_amended (code : List Char) (capture : Bool)
    (uuidFor : Nat → List Char) (proc : ProcOutcome) (fs0 : FS)
    (h0 : scanGrab code = []) (h1 : proc.exitCode = 0) :
    (fsExists (applyWrites (fsWrite fs0 temp_file code) proc.writes) temp_output = false →
      (rinterface code false none capture true uuidFor proc fs0).res = .ok .rNone) ∧
    (fsExists (applyWrites (fsWrite fs0 temp_file code) proc.writes) temp_output = true →
      (rinterface code false none capture true uuidFor proc fs0).res = .ok (.rTuple [])) := by
  constructor
  · intro hex
    simp [rinterface, rinterfaceTry, h0, h1, grabSnippets, hex]
  · intro hex
    simp [rinterface, rinterfaceTry, h0, h1, grabSnippets, hex, decodeLoop]

/-- Claim C4 witness: a concrete annotation-free script run with
`grab=True` and no side-channel file returns `None`. -/
theorem c4_no_declarations_witness :
    (rinterface "x <- 1".data false none false true (fun _ => "u".data)
        ⟨0, [], [], []⟩ emptyFS).res = .ok .rNone :=
  (c4_no_declarations_amended "x <- 1".data false (fun _ => "u".data)
    ⟨0, [], [], []⟩ emptyFS (by decide) rfl).1 (by decide)

/-- Claim C5: decoding `m=2x3:1,2,3,4,5,6` at declared type `np.ndarray`
yields a 2×3 array whose row-major logical rows are `[[1,2,3],[4,5,6]]`;
and in the matrix branch, whenever the parsed element count differs from
rows×cols the decoder raises exactly
`ValueError("Matrix data does not match shape.")`. -/
theorem c5_matrix_decode_fixture_and_shape_error :
    (∀ fs : FS, parse_r_output "m=2x3:1,2,3,4,5,6".data "np.ndarray".data fs =
      (.ok (.vNdarray2 2 3 [1, 2, 3, 4, 5, 6]), fs)) ∧
    rowsOfNdarray 2 3 [1, 2, 3, 4, 5, 6] = [[1, 2, 3], [4, 5, 6]] ∧
    (∀ (line value_str a b : List Char) (nrows ncols : Int) (data : List ℚ),
      value_str.contains ':' = true →
      value_str.contains 'x' = true →
      splitAll 'x' (splitFirst ':' value_str).1 = [a, b] →
      pyInt a = some nrows →
      pyInt b = some ncols →
      parseArrayData (splitFirst ':' value_str).2 = .ok data →
      (data.length : Int) ≠ nrows * ncols →
      parseNdarrayBranch line value_str =
        .error (.valueError "Matrix data does not match shape.".data)) := by
  refine ⟨?_, ?_, ?_⟩
  · intro fs
    with_unfolding_all rfl
  · with_unfolding_all decide
  · intro line value_str a b nrows ncols data h1 h2 h3 h4 h5 h6 h7
    unfold parseNdarrayBranch
    rw [h1, h2]
    simp only [Bool.and_self, if_true]
    rw [h3]
    dsimp only
    rw [h4]
    dsimp only
    rw [h5]
    dsimp only
    rw [h6]
    dsimp only
    rw [if_pos h7]

/-- Claim C5 witness: the fixture decodes at a concrete filesystem, and a
concrete matrix line with 2 elements declared as 2×3 raises the
shape-mismatch error. -/
theorem c5_matrix_decode_witness :
    parse_r_output "m=2x3:1,2,3,4,5,6".data "np.ndarray".data emptyFS =
      (.ok (.vNdarray2 2 3 [1, 2, 3, 4, 5, 6]), emptyFS) ∧
    parseNdarrayBranch "m=2x3:1,2".data "2x3:1,2".data =
      .error (.valueError "Matrix data does not match shape.".data) := by
  constructor
  · exact c5_matrix_decode_fixture_and_shape_error.1 emptyFS
  · exact c5_matrix_decode_fixture_and_shape_error.2.2 "m=2x3:1,2".data "2x3:1,2".data
      "2".data "3".data 2 3 [1, 2] (by decide) (by decide) (by decide) (by decide)
      (by decide) (by with_unfolding_all decide) (by decide)

/-- Claim C6: the decoding loop pairs declarations with side-channel
lines purely by position and stops at the shorter sequence: the result is
unchanged if the declarations are truncated to the number of lines
(trailing declarations are silently dropped, no error from the surplus),
and a successful decode returns exactly `min |decls| |lines|` values. -/
theorem c6_zip_truncates (ds : List (List Char × List Char))
    (ls : List (List Char)) (fs : FS) :
    decodeLoop ds ls fs = decodeLoop (ds.take ls.length) ls fs ∧
    (∀ (vs : List PyVal) (fs2 : FS), decodeLoop ds ls fs = (.ok vs, fs2) →
      vs.length = min ds.length ls.length) :=
  ⟨decodeLoop_take_eq ds ls fs, fun vs fs2 h => decodeLoop_ok_length ds ls fs fs2 vs h⟩

/-- Claim C6 witness: two declarations against one produced line decode
as if only the first declaration existed, yielding one value. -/
theorem c6_zip_truncates_witness :
    decodeLoop [("int".data, "x".data), ("str".data, "y".data)] ["x=1\n".data] emptyFS =
      decodeLoop ([("int".data, "x".data), ("str".data, "y".data)].take 1)
        ["x=1\n".data] emptyFS ∧
    ([PyVal.vInt 1].length = min 2 1) := by
  have h := c6_zip_truncates [("int".data, "x".data), ("str".data, "y".data)]
    ["x=1\n".data] emptyFS
  exact ⟨h.1, h.2 [PyVal.vInt 1] emptyFS rfl⟩

/-- Claim C7 counterexample: the string `" a "` does not round-trip
through the `str` branch — `value_str.strip()` removes the surrounding
whitespace, so decoding `x= a ` returns `"a"`, not `" a "`. -/
theorem c7_str_not_roundtripped :
    (parse_r_output "x= a ".data "str".data emptyFS).1 ≠ .ok (.vStr " a ".data) ∧
    (parse_r_output "x= a ".data "str".data emptyFS).1 = .ok (.vStr "a".data) := by
  constructor <;> with_unfolding_all decide

/-- Claim C7 (amended): for declared type `str`, decoding
`name=<s>` returns `s` exactly for every string `s` that is invariant
under `strip()` (no leading or trailing whitespace); strings with
surrounding whitespace come back stripped. -/
theorem c7_str_roundtrip_amended (nm s : List Char) (fs : FS)
    (h1 : nm.contains '=' = false) (h2 : pyStrip s = s) :
    parse_r_output (nm ++ '=' :: s) "str".data fs = (.ok (.vStr s), fs) := by
  have hc := contains_append_cons_self nm s '='
  have hs := splitFirst_append_cons '=' nm s h1
  unfold parse_r_output
  rw [if_neg (by simp [hc])]
  rw [hs]
  dsimp only
  rw [h2]
  rfl

/-- Claim C7 witness: `x=hello` decodes to `hello` at declared type
`str`. -/
theorem c7_str_roundtrip_witness :
    parse_r_output ("x".data ++ '=' :: "hello".data) "str".data emptyFS =
      (.ok (.vStr "hello".data), emptyFS) :=
  c7_str_roundtrip_amended "x".data "hello".data emptyFS (by decide) (by decide)

/-- Claim C8: calling `rinterface` with `save=True` and `fname=None`
raises `ValueError("If 'save' is True, 'fname' cannot be None.")`, and
the subprocess is never spawned. -/
theorem c8_save_without_fname_errors_before_spawn (code : List Char)
    (capture grab : Bool) (uuidFor : Nat → List Char) (proc : ProcOutcome) (fs0 : FS) :
    (rinterface code true none capture grab uuidFor proc fs0).res =
      .error (.valueError "If \x27save\x27 is True, \x27fname\x27 cannot be None.".data) ∧
    (rinterface code true none capture grab uuidFor proc fs0).spawned = false := by
  unfold rinterface rinterfaceTry
  simp [pyFalsyName]

/-- Claim C9: for `list[T]` declarations, empty trailing text decodes to
the empty list, `list[int]` decoding of `1,2,3` yields `[1,2,3]`, and a
nonempty value with an element type outside `int`/`float`/`str` raises
`ValueError("Unsupported list element type '<T>'")`. -/
theorem c9_list_decode :
    (∀ fs : FS, parse_r_output "x=".data "list[int]".data fs = (.ok (.vList []), fs)) ∧
    (∀ fs : FS, parse_r_output "x=1,2,3".data "list[int]".data fs =
      (.ok (.vList [.sInt 1, .sInt 2, .sInt 3]), fs)) ∧
    (∀ sub value_str : List Char,
      pyStrip sub = sub → value_str ≠ [] →
      sub ≠ "int".data → sub ≠ "float".data → sub ≠ "str".data →
      parseListBranch value_str ("list[".data ++ sub ++ "]".data) =
        .error (.valueError ("Unsupported list element type \x27".data
          ++ sub ++ "\x27".data))) := by
  refine ⟨fun fs => rfl, fun fs => rfl, ?_⟩
  intro sub vs hstrip hvs h1 h2 h3
  unfold parseListBranch
  have hdrop : ("list[".data ++ sub ++ "]".data).drop 5 = sub ++ "]".data := by
    rw [List.append_assoc]
    have h5 : ("list[".data).length = 5 := rfl
    rw [← h5, List.drop_left]
  have hlast : (sub ++ "]".data).dropLast = sub := by simp
  rw [hdrop, hlast, hstrip]
  rw [if_neg hvs, if_neg h1, if_neg h2, if_neg h3]

/-- Claim C9 witness: `1,2,3` decodes as `list[int]` at a concrete
filesystem, and element type `bool` on nonempty text raises the
configuration error. -/
theorem c9_list_decode_witness :
    parse_r_output "x=1,2,3".data "list[int]".data emptyFS =
      (.ok (.vList [.sInt 1, .sInt 2, .sInt 3]), emptyFS) ∧
    parseListBranch "1,2".data ("list[".data ++ "bool".data ++ "]".data) =
      .error (.valueError ("Unsupported list element type \x27".data
        ++ "bool".data ++ "\x27".data)) := by
  constructor
  · exact c9_list_decode.2.1 emptyFS
  · exact c9_list_decode.2.2 "bool".data "1,2".data (by decide) (by decide)
      (by decide) (by decide) (by decide)

/-- Claim C10: for every declared type other than `pd.DataFrame`,
`parse_r_output` leaves the filesystem unchanged and its result does not
depend on the filesystem (so two calls on the same line and type return
the same value or raise the same error, and no file is read, written or
deleted). -/
theorem c10_parse_pure_unless_dataframe (line expected_type : List Char)
    (fs fs2 : FS) (h : expected_type ≠ "pd.DataFrame".data) :
    (parse_r_output line expected_type fs).2 = fs ∧
    (parse_r_output line expected_type fs).1 =
      (parse_r_output line expected_type fs2).1 := by
  unfold parse_r_output
  split_ifs <;> simp_all

/-- Claim C10 witness: a concrete `int` decode is filesystem-invariant
across two different filesystems. -/
theorem c10_parse_pure_witness :
    (parse_r_output "x=1".data "int".data emptyFS).2 = emptyFS ∧
    (parse_r_output "x=1".data "int".data emptyFS).1 =
      (parse_r_output "x=1".data "int".data (fsWrite emptyFS "a".data "b".data)).1 :=
  c10_parse_pure_unless_dataframe "x=1".data "int".data emptyFS
    (fsWrite emptyFS "a".data "b".data) (by decide)

end RInterface
